import Mathlib

/-!
Shallow embedding of the starling_waterfall repository
(src/starling_waterfall.py and src/utils.py).

Money amounts are modelled with Int (Python ints are unbounded), wire
payloads as records with Option fields (none = key absent from the JSON
dict), HTTP outcomes as an explicit result type, and the pydantic
model_validate steps as Except-valued validators.  Side effects (HTTP
calls, printed lines) are made explicit as lists of events returned by
each operation.
-/

set_option maxHeartbeats 1000000

namespace StarlingWaterfall

/-! ## Typed domain records (the pydantic models) -/

/-- Pydantic model Amount: currency (default "GBP") and minorUnits (a plain
Python int, unbounded and unconstrained in sign). -/
structure Amount where
  currency : String
  minorUnits : Int
deriving DecidableEq, Repr

/-- Pydantic model RecurrenceRule: startDate (required) and frequency
(default "MONTHLY"). -/
structure RecurrenceRule where
  startDate : String
  frequency : String
deriving DecidableEq, Repr

/-- Pydantic model RecurringTransfer: description and reference are optional
with default None; transferUid, recurrenceRule and currencyAndAmount are
required.  There is no nextPaymentDate field. -/
structure RecurringTransfer where
  description : Option String
  transferUid : String
  recurrenceRule : RecurrenceRule
  currencyAndAmount : Amount
  reference : Option String
deriving DecidableEq, Repr

/-- Pydantic model SavingsSpace. -/
structure SavingsSpace where
  savingsGoalUid : String
  name : String
  target : Option Amount
  totalSaved : Amount
  savedPercentage : Option Int
  state : String
  recurringTransfer : Option RecurringTransfer
deriving DecidableEq, Repr

/-! ## Wire payloads (raw JSON dicts)

A field of type Option means the key may be absent.  A nested child slot in
a parent dict may be absent, hold a raw sub-dict, or hold an already
validated model instance (after transform_childs_class replaced it). -/

/-- Raw amount dict as on the wire. -/
structure AmountWire where
  currency : Option String
  minorUnits : Option Int
deriving DecidableEq, Repr

/-- Raw recurrence-rule dict as on the wire. -/
structure RecurrenceRuleWire where
  startDate : Option String
  frequency : Option String
deriving DecidableEq, Repr

/-- A child slot of a parent dict: absent key, raw sub-dict, or an already
validated model instance put there by transform_childs_class. -/
inductive ChildField (wire typed : Type) where
  | absent
  | raw (w : wire)
  | validated (t : typed)
deriving DecidableEq, Repr

/-- Raw recurring-transfer dict as on the wire / as mutated in place by
refresh_spaces.  The GET endpoint also returns nextPaymentDate, which the
RecurringTransfer model does not declare. -/
structure RecurringTransferDict where
  description : Option String
  transferUid : Option String
  recurrenceRule : ChildField RecurrenceRuleWire RecurrenceRule
  currencyAndAmount : ChildField AmountWire Amount
  reference : Option String
  nextPaymentDate : Option String
deriving DecidableEq, Repr

/-- Raw savings-goal dict as on the wire / as mutated in place by
refresh_spaces (goal["totalSaved"] is overwritten with an Amount instance
before SavingsSpace.model_validate runs). -/
structure GoalDict where
  savingsGoalUid : Option String
  name : Option String
  target : Option AmountWire
  totalSaved : ChildField AmountWire Amount
  savedPercentage : Option Int
  state : Option String
deriving DecidableEq, Repr

/-! ## Python-level failure modes -/

/-- Exceptions that can escape the embedded code paths. -/
inductive PyErr where
  | unboundLocalError
  | typeError (msg : String)
  | validationError (model field : String)
deriving DecidableEq, Repr

/-! ## Pydantic validation (model_validate) -/

/-- Amount.model_validate on a raw dict: minorUnits is required (any int,
no sign constraint), currency defaults to "GBP". -/
def Amount.model_validate (w : AmountWire) : Except PyErr Amount :=
  match w.minorUnits with
  | none => .error (.validationError "Amount" "minorUnits")
  | some n => .ok ⟨w.currency.getD "GBP", n⟩

/-- RecurrenceRule.model_validate: startDate is required, frequency defaults
to "MONTHLY". -/
def RecurrenceRule.model_validate (w : RecurrenceRuleWire) : Except PyErr RecurrenceRule :=
  match w.startDate with
  | none => .error (.validationError "RecurrenceRule" "startDate")
  | some d => .ok ⟨d, w.frequency.getD "MONTHLY"⟩

/-- Validate a child slot the way pydantic treats a nested model field: an
already validated instance passes through, a raw dict is validated
recursively, an absent required key is a validation error. -/
def validateChild {wire typed : Type} (modelName fieldName : String)
    (validate : wire → Except PyErr typed) :
    ChildField wire typed → Except PyErr typed
  | .absent => .error (.validationError modelName fieldName)
  | .raw w => validate w
  | .validated t => .ok t

/-- RecurringTransfer.model_validate over the raw dict.  The extra
nextPaymentDate key is silently ignored (pydantic default for undeclared
fields). -/
def RecurringTransfer.model_validate (d : RecurringTransferDict) :
    Except PyErr RecurringTransfer :=
  match d.transferUid with
  | none => .error (.validationError "RecurringTransfer" "transferUid")
  | some uid =>
    match validateChild "RecurringTransfer" "recurrenceRule"
        RecurrenceRule.model_validate d.recurrenceRule with
    | .error e => .error e
    | .ok rr =>
      match validateChild "RecurringTransfer" "currencyAndAmount"
          Amount.model_validate d.currencyAndAmount with
      | .error e => .error e
      | .ok amt => .ok ⟨d.description, uid, rr, amt, d.reference⟩

/-- SavingsSpace.model_validate over the (possibly mutated) goal dict.  The
recurringTransfer field is not on the wire and defaults to None. -/
def SavingsSpace.model_validate (g : GoalDict) : Except PyErr SavingsSpace :=
  match g.savingsGoalUid with
  | none => .error (.validationError "SavingsSpace" "savingsGoalUid")
  | some uid =>
    match g.name with
    | none => .error (.validationError "SavingsSpace" "name")
    | some nm =>
      match (match g.target with
        | none => Except.ok none
        | some w => (Amount.model_validate w).map some) with
      | .error e => .error e
      | .ok tgt =>
        match validateChild "SavingsSpace" "totalSaved" Amount.model_validate g.totalSaved with
        | .error e => .error e
        | .ok ts =>
          match g.state with
          | none => .error (.validationError "SavingsSpace" "state")
          | some s => .ok ⟨uid, nm, tgt, ts, g.savedPercentage, s, none⟩

/-! ## model_dump (serialisation back to the wire shape) -/

/-- Amount.model_dump: every declared field is emitted. -/
def Amount.model_dump (a : Amount) : AmountWire :=
  ⟨some a.currency, some a.minorUnits⟩

/-- RecurrenceRule.model_dump: every declared field is emitted. -/
def RecurrenceRule.model_dump (r : RecurrenceRule) : RecurrenceRuleWire :=
  ⟨some r.startDate, some r.frequency⟩

/-- RecurringTransfer.model_dump: nested models dump to raw dicts; the model
has no nextPaymentDate field, so the dump carries none. -/
def RecurringTransfer.model_dump (t : RecurringTransfer) : RecurringTransferDict :=
  ⟨t.description, some t.transferUid, .raw t.recurrenceRule.model_dump,
    .raw t.currencyAndAmount.model_dump, t.reference, none⟩

/-! ## Printed output and API calls as explicit events -/

/-- The data-bearing console lines the program prints (constant header and
separator lines are not modelled). -/
inductive OutputLine where
  | refreshingSavingsGoals
  | noSavingsGoals
  | noRecurringPayments
  | insufficientBalance (available required : Int)
  | startingWaterfall
  | distributing (name : String) (amount : Int)
  | noRecurringTransferSet (name : String)
  | waterfallCompleted
  | transformError (child className : String)
  | childNotFound (child : String)
  | balanceReport (minorUnits : Int)
  | goalBalanceLine (name : String) (minorUnits : Int)
  | transferLine (name startDate : String) (amount : Int)
  | noRecurringTransferLine (name : String)
  | waterfallTotalReport (total : Int)
deriving DecidableEq, Repr

/-- The HTTP calls the program issues. -/
inductive ApiCall where
  | getBalance
  | getSavingsGoals
  | getRecurringTransfer (savingsGoalUid : String)
  | putRecurringTransfer (savingsGoalUid : String) (payload : RecurringTransferDict)
deriving DecidableEq, Repr

/-- A call is a write exactly when it hits the PUT recurring-transfer
endpoint. -/
def isWriteCall : ApiCall → Bool
  | .putRecurringTransfer _ _ => true
  | _ => false

/-! ## The HTTP client wrapper (utils.api_request) -/

/-- What the requests library hands back for one call: either the request
itself raises before a response object exists (connection failure), or a
response with a status code and a body that may or may not parse as JSON
(none = not valid JSON). -/
inductive HttpResult (α : Type) where
  | transportError (msg : String)
  | response (status : Nat) (jsonBody : Option α)
deriving DecidableEq, Repr

/-- Outcome of a wrapped API call as seen by the Python caller: a parsed
value, a None return, or an uncaught exception. -/
inductive PyOutcome (α : Type) where
  | ok (val : α)
  | noneResult
  | raised (e : PyErr)
deriving DecidableEq, Repr

/-- requests raise_for_status raises HTTPError exactly for 4xx and 5xx
status codes. -/
def raise_for_status_raises (status : Nat) : Bool :=
  decide (400 ≤ status ∧ status < 600)

/-- utils.api_request wrapper body.  On a 4xx/5xx status raise_for_status
raises RequestException, which the except block catches; response is bound,
so the handler prints and returns None.  A body that fails to parse as JSON
raises JSONDecodeError (a RequestException) with response bound: also None.
On a transport failure requests.request raises before response is assigned,
and the except block itself evaluates response.text, raising
UnboundLocalError to the caller. -/
def api_request {α : Type} (r : HttpResult α) : PyOutcome α :=
  match r with
  | .transportError _ => .raised .unboundLocalError
  | .response status body =>
    if raise_for_status_raises status then .noneResult
    else
      match body with
      | some j => .ok j
      | none => .noneResult

/-! ## utils.transform_childs_class, specialised to its two call sites -/

/-- transform_childs_class(parent, "recurrenceRule", RecurrenceRule):
returns the (possibly updated) parent, the Python return value, and the
lines it printed.  A validation failure is caught, logged and yields None
with the parent unchanged. -/
def transform_childs_class_recurrenceRule (parent : RecurringTransferDict) :
    RecurringTransferDict × Option RecurrenceRule × List OutputLine :=
  match parent.recurrenceRule with
  | .absent => (parent, none, [.childNotFound "recurrenceRule"])
  | .validated r => (parent, some r, [])
  | .raw w =>
    match RecurrenceRule.model_validate w with
    | .ok r => ({parent with recurrenceRule := .validated r}, some r, [])
    | .error _ => (parent, none, [.transformError "recurrenceRule" "RecurrenceRule"])

/-- transform_childs_class(parent, "currencyAndAmount", Amount): same shape
as the recurrence-rule instance. -/
def transform_childs_class_currencyAndAmount (parent : RecurringTransferDict) :
    RecurringTransferDict × Option Amount × List OutputLine :=
  match parent.currencyAndAmount with
  | .absent => (parent, none, [.childNotFound "currencyAndAmount"])
  | .validated a => (parent, some a, [])
  | .raw w =>
    match Amount.model_validate w with
    | .ok a => ({parent with currencyAndAmount := .validated a}, some a, [])
    | .error _ => (parent, none, [.transformError "currencyAndAmount" "Amount"])

/-! ## API environment and application state -/

/-- The mocked external API: what one HTTP exchange with each endpoint
yields during a run.  The savings-goals body is the savingsGoalList array;
the recurring-transfer body is looked up by goal uid; the PUT endpoint
returns a response whose JSON body is ignored by the caller. -/
structure ApiEnv where
  savingsGoalsResp : HttpResult (List GoalDict)
  recurringTransferResp : String → HttpResult RecurringTransferDict
  putRecurringTransferResp : String → HttpResult Unit

/-- The in-memory application session: the balance Amount fetched at
startup and the savings-goal list self.spaces. -/
structure AppState where
  balance : Amount
  spaces : List SavingsSpace
deriving DecidableEq, Repr

/-- StarlingAPI.get_savings_goals: run the wrapped GET and extract
savingsGoalList, or None on failure. -/
def get_savings_goals (api : ApiEnv) : PyOutcome (List GoalDict) :=
  api_request api.savingsGoalsResp

/-- StarlingAPI.get_recurring_transfer for one goal. -/
def get_recurring_transfer (api : ApiEnv) (savingsGoalUid : String) :
    PyOutcome RecurringTransferDict :=
  api_request (api.recurringTransferResp savingsGoalUid)

/-! ## refresh_spaces -/

/-- The per-goal static part of the refresh loop body:
Amount.model_validate(goal.get("totalSaved")) — raising if the key is
absent — then goal["totalSaved"] = that instance, then
SavingsSpace.model_validate(goal).  Any validation error is uncaught. -/
def validate_goal_dict (goal : GoalDict) : Except PyErr SavingsSpace :=
  match ((match goal.totalSaved with
    | .absent => Except.error (PyErr.validationError "Amount" "minorUnits")
    | .raw w => Amount.model_validate w
    | .validated a => Except.ok a) : Except PyErr Amount) with
  | .error e => .error e
  | .ok totalSaved =>
    SavingsSpace.model_validate {goal with totalSaved := .validated totalSaved}

/-- The per-goal dynamic part of the refresh loop body: fetch the goal's
recurring transfer; a None result (HTTP failure) leaves recurringTransfer
unset; a dict is transformed child-by-child and validated, any validation
error being uncaught; a transport failure propagates the wrapper's own
exception. -/
def attach_recurring_transfer (api : ApiEnv) (space : SavingsSpace) :
    Except PyErr SavingsSpace × List ApiCall × List OutputLine :=
  match get_recurring_transfer api space.savingsGoalUid with
  | .raised e => (.error e, [.getRecurringTransfer space.savingsGoalUid], [])
  | .noneResult => (.ok space, [.getRecurringTransfer space.savingsGoalUid], [])
  | .ok rt =>
    let (rt1, _, logs1) := transform_childs_class_recurrenceRule rt
    let (rt2, _, logs2) := transform_childs_class_currencyAndAmount rt1
    match RecurringTransfer.model_validate rt2 with
    | .error e => (.error e, [.getRecurringTransfer space.savingsGoalUid], logs1 ++ logs2)
    | .ok t =>
      (.ok {space with recurringTransfer := some t},
        [.getRecurringTransfer space.savingsGoalUid], logs1 ++ logs2)

/-- One full iteration of the refresh loop body for one raw goal dict. -/
def process_goal (api : ApiEnv) (goal : GoalDict) :
    Except PyErr SavingsSpace × List ApiCall × List OutputLine :=
  match validate_goal_dict goal with
  | .error e => (.error e, [], [])
  | .ok space => attach_recurring_transfer api space

/-- The refresh loop over the fetched goal dicts: stops at the first
uncaught exception, otherwise collects the built SavingsSpace values in
order. -/
def refresh_loop (api : ApiEnv) (goals : List GoalDict) :
    Except PyErr (List SavingsSpace) × List ApiCall × List OutputLine :=
  match goals with
  | [] => (.ok [], [], [])
  | g :: gs =>
    match process_goal api g with
    | (.error e, calls, outs) => (.error e, calls, outs)
    | (.ok space, calls, outs) =>
      match refresh_loop api gs with
      | (rest, calls2, outs2) =>
        (rest.map (space :: ·), calls ++ calls2, outs ++ outs2)

/-- Application.refresh_spaces: fetch the goal list and run the loop.  The
built spaces are APPENDED to self.spaces (the list is never cleared).  A
None goal-list result makes the for statement iterate None: TypeError. -/
def refresh_spaces (api : ApiEnv) (st : AppState) :
    Except PyErr AppState × List ApiCall × List OutputLine :=
  match get_savings_goals api with
  | .raised e => (.error e, [.getSavingsGoals], [])
  | .noneResult =>
    (.error (.typeError "NoneType object is not iterable"), [.getSavingsGoals], [])
  | .ok goals =>
    match refresh_loop api goals with
    | (.error e, calls, outs) => (.error e, .getSavingsGoals :: calls, outs)
    | (.ok newSpaces, calls, outs) =>
      (.ok {st with spaces := st.spaces ++ newSpaces}, .getSavingsGoals :: calls, outs)

/-- Application._refresh_spaces_if_needed: refresh only when self.spaces is
empty, announcing the refresh first. -/
def _refresh_spaces_if_needed (api : ApiEnv) (st : AppState) :
    Except PyErr AppState × List ApiCall × List OutputLine :=
  if st.spaces.isEmpty then
    match refresh_spaces api st with
    | (r, calls, outs) => (r, calls, .refreshingSavingsGoals :: outs)
  else (.ok st, [], [])

/-! ## calculate_waterfall_total -/

/-- Application.calculate_waterfall_total: sum of
space.recurringTransfer.currencyAndAmount.minorUnits over the spaces whose
recurringTransfer is set. -/
def calculate_waterfall_total (spaces : List SavingsSpace) : Int :=
  ((spaces.filterMap fun space => space.recurringTransfer).map
    fun t => t.currencyAndAmount.minorUnits).sum

/-- The totalRecurring operation as the spec words it: each goal
contributes its attached transfer amount, or 0 when it has none. -/
def totalRecurring_spec (spaces : List SavingsSpace) : Int :=
  (spaces.map fun space =>
    (space.recurringTransfer.map fun t => t.currencyAndAmount.minorUnits).getD 0).sum

/-! ## execute_waterfall -/

/-- One iteration of the distribution loop: a set recurring transfer whose
amount is strictly positive is resubmitted as its model_dump and announced;
a set transfer with amount ≤ 0 only prints the skip line; an unset transfer
does nothing at all.  A transport failure of the PUT raises out of the
wrapper (the JSON result of a successful PUT is discarded). -/
def waterfall_step (api : ApiEnv) (space : SavingsSpace) :
    Except PyErr Unit × List ApiCall × List OutputLine :=
  match space.recurringTransfer with
  | none => (.ok (), [], [])
  | some t =>
    if t.currencyAndAmount.minorUnits > 0 then
      match api_request (api.putRecurringTransferResp space.savingsGoalUid) with
      | .raised e =>
        (.error e, [.putRecurringTransfer space.savingsGoalUid t.model_dump],
          [.distributing space.name t.currencyAndAmount.minorUnits])
      | _ =>
        (.ok (), [.putRecurringTransfer space.savingsGoalUid t.model_dump],
          [.distributing space.name t.currencyAndAmount.minorUnits])
    else (.ok (), [], [.noRecurringTransferSet space.name])

/-- The distribution loop over all spaces, stopping at the first uncaught
exception. -/
def waterfall_loop (api : ApiEnv) (spaces : List SavingsSpace) :
    Except PyErr Unit × List ApiCall × List OutputLine :=
  match spaces with
  | [] => (.ok (), [], [])
  | s :: rest =>
    match waterfall_step api s with
    | (.error e, calls, outs) => (.error e, calls, outs)
    | (.ok _, calls, outs) =>
      match waterfall_loop api rest with
      | (r, calls2, outs2) => (r, calls ++ calls2, outs ++ outs2)

/-- Application.execute_waterfall: refresh if needed, bail out on an empty
goal list, on a zero recurring total, or on an insufficient balance, and
otherwise run the distribution loop. -/
def execute_waterfall (api : ApiEnv) (st : AppState) :
    Except PyErr AppState × List ApiCall × List OutputLine :=
  match _refresh_spaces_if_needed api st with
  | (.error e, calls, outs) => (.error e, calls, outs)
  | (.ok st1, calls, outs) =>
    if st1.spaces.isEmpty then (.ok st1, calls, outs ++ [.noSavingsGoals])
    else
      if calculate_waterfall_total st1.spaces = 0 then
        (.ok st1, calls, outs ++ [.noRecurringPayments])
      else if st1.balance.minorUnits < calculate_waterfall_total st1.spaces then
        (.ok st1, calls,
          outs ++ [.insufficientBalance st1.balance.minorUnits
            (calculate_waterfall_total st1.spaces)])
      else
        match waterfall_loop api st1.spaces with
        | (.ok _, calls2, outs2) =>
          (.ok st1, calls ++ calls2,
            outs ++ [.startingWaterfall] ++ outs2 ++ [.waterfallCompleted])
        | (.error e, calls2, outs2) =>
          (.error e, calls ++ calls2, outs ++ [.startingWaterfall] ++ outs2)

/-! ## Reporting -/

/-- Application.print_balance: pure formatting of the already-fetched
balance. -/
def print_balance (st : AppState) : AppState × List ApiCall × List OutputLine :=
  (st, [], [.balanceReport st.balance.minorUnits])

/-- Application.print_waterfall_total: pure formatting of the computed
total. -/
def print_waterfall_total (st : AppState) : AppState × List ApiCall × List OutputLine :=
  (st, [], [.waterfallTotalReport (calculate_waterfall_total st.spaces)])

/-- Application.print_savings_goals: refreshes if the goal list is empty,
then prints one balance line per goal (an empty name falls back to
"Unnamed Goal"). -/
def print_savings_goals (api : ApiEnv) (st : AppState) :
    Except PyErr AppState × List ApiCall × List OutputLine :=
  match _refresh_spaces_if_needed api st with
  | (.error e, calls, outs) => (.error e, calls, outs)
  | (.ok st1, calls, outs) =>
    if st1.spaces.isEmpty then (.ok st1, calls, outs ++ [.noSavingsGoals])
    else
      (.ok st1, calls, outs ++ st1.spaces.map fun goal =>
        .goalBalanceLine (if goal.name = "" then "Unnamed Goal" else goal.name)
          goal.totalSaved.minorUnits)

/-- Application.print_recurring_transfers: refreshes if the goal list is
empty, then prints one schedule line per goal. -/
def print_recurring_transfers (api : ApiEnv) (st : AppState) :
    Except PyErr AppState × List ApiCall × List OutputLine :=
  match _refresh_spaces_if_needed api st with
  | (.error e, calls, outs) => (.error e, calls, outs)
  | (.ok st1, calls, outs) =>
    if st1.spaces.isEmpty then (.ok st1, calls, outs ++ [.noSavingsGoals])
    else
      (.ok st1, calls, outs ++ st1.spaces.map fun goal =>
        match goal.recurringTransfer with
        | some t =>
          .transferLine goal.name t.recurrenceRule.startDate t.currencyAndAmount.minorUnits
        | none => .noRecurringTransferLine goal.name)

/-! ## Derived descriptions used by the correctness statements -/

/-- The write call the distribution loop issues for one goal: the model
dump of its recurring transfer when that is set with a strictly positive
amount, and nothing otherwise. -/
def goal_write (space : SavingsSpace) : Option ApiCall :=
  match space.recurringTransfer with
  | some t =>
    if t.currencyAndAmount.minorUnits > 0 then
      some (.putRecurringTransfer space.savingsGoalUid t.model_dump)
    else none
  | none => none

/-- The console lines the distribution loop prints for one goal: the
distributing line for a positive transfer, the skip line for a set transfer
with amount ≤ 0, and nothing at all for a goal without a transfer. -/
def goal_report (space : SavingsSpace) : List OutputLine :=
  match space.recurringTransfer with
  | some t =>
    if t.currencyAndAmount.minorUnits > 0 then
      [.distributing space.name t.currencyAndAmount.minorUnits]
    else [.noRecurringTransferSet space.name]
  | none => []

/-- The round-trip mapping of a fetched recurring-transfer dict into the
typed record, exactly as refresh_spaces performs it: both child transforms
followed by RecurringTransfer.model_validate. -/
def map_recurring_transfer (d : RecurringTransferDict) : Except PyErr RecurringTransfer :=
  match transform_childs_class_recurrenceRule d with
  | (d1, _, _) =>
    match transform_childs_class_currencyAndAmount d1 with
    | (d2, _, _) => RecurringTransfer.model_validate d2

/-! ## Concrete fixtures (mirroring the repository test data) -/

/-- A GBP amount dict with the given minor units. -/
def amtW (n : Int) : AmountWire := ⟨some "GBP", some n⟩

/-- The first savings-goal dict of the test fixture. -/
def goalDictA : GoalDict :=
  ⟨some "goal-A", some "Trip to Paris", some (amtW 100000), .raw (amtW 50000),
    some 50, some "ACTIVE"⟩

/-- The second savings-goal dict of the test fixture. -/
def goalDictB : GoalDict :=
  ⟨some "goal-B", some "Rainy Day Fund", some (amtW 10000), .raw (amtW 2000),
    some 20, some "ACTIVE"⟩

/-- A well-formed recurring-transfer wire payload for goal A, with the
nextPaymentDate key the GET endpoint returns. -/
def rtDictA : RecurringTransferDict :=
  ⟨none, some "transfer-A", .raw ⟨some "2023-01-01", some "MONTHLY"⟩,
    .raw (amtW 50000), none, some "2023-01-01"⟩

/-- The typed record rtDictA maps to. -/
def tA : RecurringTransfer :=
  ⟨none, "transfer-A", ⟨"2023-01-01", "MONTHLY"⟩, ⟨"GBP", 50000⟩, none⟩

/-- The typed savings space for goal A with its recurring transfer. -/
def spaceA : SavingsSpace :=
  ⟨"goal-A", "Trip to Paris", some ⟨"GBP", 100000⟩, ⟨"GBP", 50000⟩, some 50,
    "ACTIVE", some tA⟩

/-- The typed savings space for goal B, which has no recurring transfer. -/
def spaceB : SavingsSpace :=
  ⟨"goal-B", "Rainy Day Fund", some ⟨"GBP", 10000⟩, ⟨"GBP", 2000⟩, some 20,
    "ACTIVE", none⟩

/-- An API with no savings goals at all. -/
def apiEmpty : ApiEnv :=
  ⟨.response 200 (some []), fun _ => .response 404 none, fun _ => .response 200 (some ())⟩

/-- An API with goal A only; goal A has a recurring transfer, every other
recurring-transfer fetch is a 404. -/
def apiOne : ApiEnv :=
  ⟨.response 200 (some [goalDictA]),
   fun uid => if uid = "goal-A" then .response 200 (some rtDictA) else .response 404 none,
   fun _ => .response 200 (some ())⟩

/-- An API with goals A and B where the recurring-transfer fetch of goal A
dies with a transport-level connection failure. -/
def apiTransport : ApiEnv :=
  ⟨.response 200 (some [goalDictA, goalDictB]),
   fun uid =>
     if uid = "goal-A" then .transportError "Connection refused"
     else .response 200 (some rtDictA),
   fun _ => .response 200 (some ())⟩

/-- A recurring-transfer payload whose currencyAndAmount block is missing
the required minorUnits key. -/
def rtDictBadAmount : RecurringTransferDict :=
  ⟨none, some "transfer-A", .raw ⟨some "2023-01-01", some "MONTHLY"⟩,
    .raw ⟨some "GBP", none⟩, none, some "2023-01-01"⟩

/-- An API with goal A whose recurring-transfer payload has the malformed
amount block. -/
def apiBadAmount : ApiEnv :=
  ⟨.response 200 (some [goalDictA]),
   fun _ => .response 200 (some rtDictBadAmount),
   fun _ => .response 200 (some ())⟩

/-- The session state after startup with the test balance and both spaces
already loaded. -/
def stAB : AppState := ⟨⟨"GBP", 123451⟩, [spaceA, spaceB]⟩

/-- A recurring-transfer dict whose recurrenceRule slot already holds a
validated instance while its amount block is missing minorUnits. -/
def rtDictBadValidated : RecurringTransferDict :=
  ⟨none, some "transfer-A", .validated ⟨"2023-01-01", "MONTHLY"⟩,
    .raw ⟨some "GBP", none⟩, none, none⟩

/-- An API whose every recurring-transfer fetch returns the
rtDictBadValidated payload. -/
def apiBadValidated : ApiEnv :=
  ⟨.response 200 (some [goalDictA]),
   fun _ => .response 200 (some rtDictBadValidated),
   fun _ => .response 200 (some ())⟩

/-- The typed savings space for goal A before any transfer is attached. -/
def spaceA0 : SavingsSpace :=
  ⟨"goal-A", "Trip to Paris", some ⟨"GBP", 100000⟩, ⟨"GBP", 50000⟩, some 50,
    "ACTIVE", none⟩

/-- Session state holding one copy of space A. -/
def stA1 : AppState := ⟨⟨"GBP", 123451⟩, [spaceA]⟩

/-- Session state holding two copies of space A. -/
def stA2 : AppState := ⟨⟨"GBP", 123451⟩, [spaceA, spaceA]⟩

/-- The calls one refresh against apiOne issues. -/
def refreshCallsOne : List ApiCall :=
  [.getSavingsGoals, .getRecurringTransfer "goal-A"]

/-- The calls execute_waterfall issues on stAB against apiOne. -/
def wfCallsAB : List ApiCall := [.putRecurringTransfer "goal-A" tA.model_dump]

/-- The lines execute_waterfall prints on stAB against apiOne. -/
def wfOutsAB : List OutputLine :=
  [.startingWaterfall, .distributing "Trip to Paris" 50000, .waterfallCompleted]

/-! ## Helper lemmas -/

/-- Every branch of attach_recurring_transfer issues exactly the one GET
call for the goal, never a write. -/
lemma attach_no_write (api : ApiEnv) (s : SavingsSpace) :
    ((attach_recurring_transfer api s).2.1).filter isWriteCall = [] := by
  unfold attach_recurring_transfer
  repeat' split
  all_goals simp [isWriteCall]

/-- process_goal issues no write call. -/
lemma process_goal_no_write (api : ApiEnv) (g : GoalDict) :
    ((process_goal api g).2.1).filter isWriteCall = [] := by
  unfold process_goal
  split
  · simp
  · exact attach_no_write api _

/-- The refresh loop issues no write call. -/
lemma refresh_loop_no_write (api : ApiEnv) (goals : List GoalDict) :
    ((refresh_loop api goals).2.1).filter isWriteCall = [] := by
  induction goals with
  | nil => simp [refresh_loop]
  | cons g gs ih =>
    have hg := process_goal_no_write api g
    unfold refresh_loop
    rcases hp : process_goal api g with ⟨r, calls, outs⟩
    rw [hp] at hg
    simp only at hg
    cases r with
    | error e => simpa using hg
    | ok space =>
      rcases hl : refresh_loop api gs with ⟨rest, calls2, outs2⟩
      rw [hl] at ih
      simp only at ih
      simp [List.filter_append, hg, ih]

/-- refresh_spaces issues no write call. -/
lemma refresh_spaces_no_write (api : ApiEnv) (st : AppState) :
    ((refresh_spaces api st).2.1).filter isWriteCall = [] := by
  unfold refresh_spaces
  split
  · simp [isWriteCall]
  · simp [isWriteCall]
  · rename_i goals2 heq
    have hthis := refresh_loop_no_write api goals2
    rcases hr : refresh_loop api goals2 with ⟨r, calls, outs⟩
    rw [hr] at hthis
    simp only at hthis
    cases r <;> simp_all [isWriteCall]

/-- _refresh_spaces_if_needed issues no write call. -/
lemma refresh_if_needed_no_write (api : ApiEnv) (st : AppState) :
    ((_refresh_spaces_if_needed api st).2.1).filter isWriteCall = [] := by
  unfold _refresh_spaces_if_needed
  split
  · have := refresh_spaces_no_write api st
    rcases hr : refresh_spaces api st with ⟨r, calls, outs⟩
    rw [hr] at this
    simpa using this
  · simp

/-- A successful refresh keeps the balance and appends the freshly built
spaces to the existing list. -/
lemma refresh_spaces_ok_shape (api : ApiEnv) (st st' : AppState)
    (calls : List ApiCall) (outs : List OutputLine)
    (h : refresh_spaces api st = (.ok st', calls, outs)) :
    st'.balance = st.balance ∧ ∃ newSpaces, st'.spaces = st.spaces ++ newSpaces := by
  unfold refresh_spaces at h
  split at h
  · simp at h
  · simp at h
  · rename_i goals2 heq
    rcases hr : refresh_loop api goals2 with ⟨r, calls2, outs2⟩
    rw [hr] at h
    cases r with
    | error e => simp at h
    | ok newSpaces =>
      simp only [Prod.mk.injEq, Except.ok.injEq] at h
      refine ⟨?_, newSpaces, ?_⟩ <;> rw [← h.1]

/-- A successful refresh-if-needed keeps the balance. -/
lemma refresh_if_needed_balance (api : ApiEnv) (st st1 : AppState)
    (calls : List ApiCall) (outs : List OutputLine)
    (h : _refresh_spaces_if_needed api st = (.ok st1, calls, outs)) :
    st1.balance = st.balance := by
  unfold _refresh_spaces_if_needed at h
  split at h
  · rcases hr : refresh_spaces api st with ⟨r, calls2, outs2⟩
    rw [hr] at h
    cases r with
    | error e => simp at h
    | ok st2 =>
      simp only [Prod.mk.injEq, Except.ok.injEq] at h
      rw [← h.1]
      exact (refresh_spaces_ok_shape api st st2 calls2 outs2 (by rw [hr])).1
  · simp only [Prod.mk.injEq, Except.ok.injEq] at h
    rw [← h.1]

/-- When the goal list is already populated, _refresh_spaces_if_needed does
nothing at all. -/
lemma refresh_if_needed_nonempty (api : ApiEnv) (st : AppState)
    (h : st.spaces ≠ []) :
    _refresh_spaces_if_needed api st = (.ok st, [], []) := by
  unfold _refresh_spaces_if_needed
  split
  · rename_i hemp
    exact absurd (List.isEmpty_iff.mp hemp) h
  · rfl

/-- The write the distribution step issues for one goal. -/
lemma waterfall_step_calls (api : ApiEnv) (s : SavingsSpace) :
    (waterfall_step api s).2.1 = (goal_write s).toList := by
  unfold waterfall_step goal_write
  repeat' split
  all_goals try simp_all
  all_goals omega

/-- The lines the distribution step prints for one goal. -/
lemma waterfall_step_outs (api : ApiEnv) (s : SavingsSpace) :
    (waterfall_step api s).2.2 = goal_report s := by
  unfold waterfall_step goal_report
  repeat' split
  all_goals try simp_all
  all_goals omega

/-- A distribution loop that runs to completion issues exactly the
goal_write calls and prints exactly the goal_report lines, in goal
order. -/
lemma waterfall_loop_ok (api : ApiEnv) (spaces : List SavingsSpace)
    (u : Unit) (calls : List ApiCall) (outs : List OutputLine)
    (h : waterfall_loop api spaces = (.ok u, calls, outs)) :
    calls = spaces.filterMap goal_write ∧ outs = (spaces.map goal_report).flatten := by
  induction spaces generalizing calls outs with
  | nil =>
    simp only [waterfall_loop, Prod.mk.injEq] at h
    simp [← h.2.1, ← h.2.2]
  | cons s rest ih =>
    cases u
    have hc := waterfall_step_calls api s
    have ho := waterfall_step_outs api s
    unfold waterfall_loop at h
    rcases hs : waterfall_step api s with ⟨r1, c1, o1⟩
    rw [hs] at h hc ho
    simp only at hc ho
    cases r1 with
    | error e => simp at h
    | ok w =>
      cases w
      rcases hl : waterfall_loop api rest with ⟨r2, c2, o2⟩
      rw [hl] at h
      cases r2 with
      | error e => simp at h
      | ok v =>
        cases v
        simp only [Prod.mk.injEq, Except.ok.injEq, true_and] at h
        obtain ⟨hcalls, houts⟩ := h
        obtain ⟨h2, h3⟩ := ih c2 o2 hl
        subst hcalls houts hc ho h2 h3
        constructor
        · cases hw : goal_write s <;> simp [List.filterMap_cons, hw]
        · simp

/-- Everything goal_write produces is a write call. -/
lemma goal_write_isWrite (s : SavingsSpace) (c : ApiCall)
    (h : goal_write s = some c) : isWriteCall c = true := by
  unfold goal_write at h
  split at h
  · split at h
    · cases h
      rfl
    · cases h
  · cases h

/-- Filtering the goal_write calls for writes keeps them all. -/
lemma filterMap_goal_write_filter (spaces : List SavingsSpace) :
    (spaces.filterMap goal_write).filter isWriteCall = spaces.filterMap goal_write := by
  rw [List.filter_eq_self]
  intro c hc
  obtain ⟨s, _, hs⟩ := List.mem_filterMap.mp hc
  exact goal_write_isWrite s c hs

/-- A goal dict that validates yields a space with no recurring transfer
attached yet. -/
lemma validate_goal_dict_no_transfer (g : GoalDict) (s : SavingsSpace)
    (h : validate_goal_dict g = .ok s) : s.recurringTransfer = none := by
  unfold validate_goal_dict SavingsSpace.model_validate at h
  repeat' split at h
  all_goals simp_all
  rw [← h]

/-! ## Claims -/

/-- Claim C2: calculate_waterfall_total equals the spec description of
totalRecurring — each goal with a recurring transfer contributes its
amount.minorUnits and each goal without one contributes 0 — it returns 0 on
the empty goal set, and it is invariant under reordering of the goals. -/
theorem C2_totalRecurring :
    (∀ spaces : List SavingsSpace,
      calculate_waterfall_total spaces = totalRecurring_spec spaces) ∧
    calculate_waterfall_total [] = 0 ∧
    (∀ l1 l2 : List SavingsSpace, l1.Perm l2 →
      calculate_waterfall_total l1 = calculate_waterfall_total l2) := by
  refine ⟨?_, by simp [calculate_waterfall_total], ?_⟩
  · intro spaces
    induction spaces with
    | nil => simp [calculate_waterfall_total, totalRecurring_spec]
    | cons s rest ih =>
      cases hrt : s.recurringTransfer with
      | none =>
        simpa [calculate_waterfall_total, totalRecurring_spec,
          List.filterMap_cons, hrt] using ih
      | some t =>
        simpa [calculate_waterfall_total, totalRecurring_spec,
          List.filterMap_cons, hrt] using ih
  · intro l1 l2 hp
    unfold calculate_waterfall_total
    exact List.Perm.sum_eq ((hp.filterMap _).map _)

/-- Witness for C2 at concrete inputs: the goal set of the test fixture,
the empty set, and a transposition of the fixture set. -/
theorem C2_totalRecurring_witness :
    calculate_waterfall_total [spaceA, spaceB] = totalRecurring_spec [spaceA, spaceB] ∧
    calculate_waterfall_total [] = 0 ∧
    calculate_waterfall_total [spaceA, spaceB] = calculate_waterfall_total [spaceB, spaceA] :=
  ⟨C2_totalRecurring.1 [spaceA, spaceB], C2_totalRecurring.2.1,
    C2_totalRecurring.2.2 [spaceA, spaceB] [spaceB, spaceA] (by decide)⟩

/-- Claim C3 (code bug): on a transport-level request failure the
api_request wrapper does not log-and-return-None — its own except block
reads the never-assigned response variable, so UnboundLocalError is raised
to the caller. -/
theorem C3_api_request_transport_crash :
    api_request (HttpResult.transportError "Connection refused"
        : HttpResult (List GoalDict))
      = PyOutcome.raised PyErr.unboundLocalError ∧
    api_request (HttpResult.transportError "Connection refused"
        : HttpResult (List GoalDict))
      ≠ PyOutcome.noneResult :=
  ⟨rfl, by decide⟩

/-- Counterexample to claim C1 as stated: on a state whose (refreshed) goal
set is empty, the total recurring amount is 0, yet the run aborts with the
no-savings-goals message and never prints the no-recurring-payments
reason. -/
theorem C1_empty_goalset_reason_counterexample :
    execute_waterfall apiEmpty ⟨⟨"GBP", 100⟩, []⟩ =
      (.ok ⟨⟨"GBP", 100⟩, []⟩, [.getSavingsGoals],
        [.refreshingSavingsGoals, .noSavingsGoals]) ∧
    calculate_waterfall_total [] = 0 ∧
    OutputLine.noRecurringPayments ∉
      [OutputLine.refreshingSavingsGoals, OutputLine.noSavingsGoals] :=
  ⟨rfl, by decide, by decide⟩

/-- Claim C1 (amended): on any completed execute_waterfall run, no write
call is issued when the refreshed goal set has zero recurring total or the
balance is below it; an empty goal set aborts with the no-savings-goals
message (not the no-recurring-payments one), a nonempty set with zero total
aborts with the no-recurring-payments reason, an insufficient balance
aborts with the insufficient-balance reason, and otherwise distribution
proceeds. -/
theorem C1_waterfall_preconditions (api : ApiEnv) (st st1 : AppState)
    (calls : List ApiCall) (outs : List OutputLine)
    (h : execute_waterfall api st = (.ok st1, calls, outs)) :
    (calculate_waterfall_total st1.spaces = 0 ∨
        st1.balance.minorUnits < calculate_waterfall_total st1.spaces →
      calls.filter isWriteCall = []) ∧
    (st1.spaces = [] → OutputLine.noSavingsGoals ∈ outs) ∧
    (st1.spaces ≠ [] → calculate_waterfall_total st1.spaces = 0 →
      OutputLine.noRecurringPayments ∈ outs) ∧
    (calculate_waterfall_total st1.spaces ≠ 0 →
      st1.balance.minorUnits < calculate_waterfall_total st1.spaces →
      OutputLine.insufficientBalance st1.balance.minorUnits
        (calculate_waterfall_total st1.spaces) ∈ outs) ∧
    (calculate_waterfall_total st1.spaces ≠ 0 →
      ¬ st1.balance.minorUnits < calculate_waterfall_total st1.spaces →
      OutputLine.startingWaterfall ∈ outs) := by
  have hnw := refresh_if_needed_no_write api st
  unfold execute_waterfall at h
  split at h
  · simp at h
  · rename_i stA calls0 outs0 heq
    rw [heq] at hnw
    simp only at hnw
    split at h
    · rename_i hemp
      simp only [Prod.mk.injEq, Except.ok.injEq] at h
      obtain ⟨hst, hcalls, houts⟩ := h
      subst hst hcalls houts
      refine ⟨?_, ?_, ?_, ?_, ?_⟩ <;> intros <;>
        simp_all [List.isEmpty_iff, calculate_waterfall_total]
    · rename_i hemp
      split at h
      · rename_i htot0
        simp only [Prod.mk.injEq, Except.ok.injEq] at h
        obtain ⟨hst, hcalls, houts⟩ := h
        subst hst hcalls houts
        refine ⟨?_, ?_, ?_, ?_, ?_⟩ <;> intros <;>
          simp_all [List.isEmpty_iff]
      · rename_i htot0
        split at h
        · rename_i hbal
          simp only [Prod.mk.injEq, Except.ok.injEq] at h
          obtain ⟨hst, hcalls, houts⟩ := h
          subst hst hcalls houts
          refine ⟨?_, ?_, ?_, ?_, ?_⟩ <;> intros <;>
            simp_all [List.isEmpty_iff]
        · rename_i hbal
          split at h
          · rename_i u calls2 outs2 hloop
            simp only [Prod.mk.injEq, Except.ok.injEq] at h
            obtain ⟨hst, hcalls, houts⟩ := h
            subst hst hcalls houts
            refine ⟨fun hd => ?_, ?_, ?_, ?_, ?_⟩
            · rcases hd with h0 | hlt
              · exact absurd h0 htot0
              · exact absurd hlt hbal
            all_goals intros
            all_goals simp_all [List.isEmpty_iff]
          · simp at h

/-- Witness for C1 at the spec example: balance 123451, one goal with a
50000 transfer and one without; the hypotheses hold and distribution
proceeds. -/
theorem C1_waterfall_preconditions_witness :
    execute_waterfall apiOne stAB = (.ok stAB, wfCallsAB, wfOutsAB) ∧
    OutputLine.startingWaterfall ∈ wfOutsAB :=
  ⟨rfl,
    (C1_waterfall_preconditions apiOne stAB stAB wfCallsAB wfOutsAB
      rfl).2.2.2.2 (by decide) (by decide)⟩

/-- Counterexample to claim C4 as stated: the well-formed wire payload of
the GET recurring-transfer endpoint carries nextPaymentDate; mapping it
into the typed RecurringTransfer and dumping it back loses that field, so
the round trip does not preserve every field. -/
theorem C4_roundtrip_counterexample :
    map_recurring_transfer rtDictA = .ok tA ∧
    tA.model_dump ≠ rtDictA ∧
    rtDictA.nextPaymentDate = some "2023-01-01" ∧
    tA.model_dump.nextPaymentDate = none :=
  ⟨rfl, by decide, by decide, by decide⟩

/-- Claim C4 (amended): for a recurring-transfer wire payload whose
modelled fields are all explicitly present, the refresh-side mapping into
the typed record succeeds and preserves every modelled field, and the dump
resubmitted by execute_waterfall reproduces the payload except that the
unmodelled nextPaymentDate field is dropped. -/
theorem C4_roundtrip_modelled_fields
    (desc : Option String) (uid startDate frequency currency : String)
    (minorUnits : Int) (ref npd : Option String) :
    map_recurring_transfer
        ⟨desc, some uid, .raw ⟨some startDate, some frequency⟩,
          .raw ⟨some currency, some minorUnits⟩, ref, npd⟩
      = .ok ⟨desc, uid, ⟨startDate, frequency⟩, ⟨currency, minorUnits⟩, ref⟩ ∧
    RecurringTransfer.model_dump
        ⟨desc, uid, ⟨startDate, frequency⟩, ⟨currency, minorUnits⟩, ref⟩
      = ⟨desc, some uid, .raw ⟨some startDate, some frequency⟩,
          .raw ⟨some currency, some minorUnits⟩, ref, none⟩ := by
  constructor
  · rfl
  · rfl

/-- Counterexample to claim C5 as stated: on the spec example state
(balance 123451, goal A with a 50000 transfer, goal B with none) the run
issues exactly the one write for goal A, and goal B — which has no
recurring transfer — gets no skip report in the output at all. -/
theorem C5_silent_skip_counterexample :
    execute_waterfall apiOne stAB = (.ok stAB, wfCallsAB, wfOutsAB) ∧
    spaceB ∈ stAB.spaces ∧
    spaceB.recurringTransfer = none ∧
    OutputLine.noRecurringTransferSet "Rainy Day Fund" ∉ wfOutsAB ∧
    OutputLine.noRecurringTransferSet spaceB.name ∉ wfOutsAB :=
  ⟨rfl, by decide, by decide, by decide, by decide⟩

/-- Claim C5 (amended): once the precondition checks pass, the write calls
of the run are exactly one resubmission of the unchanged model dump per
goal whose recurring transfer has a strictly positive amount; a goal with a
zero-or-negative-amount transfer is skipped and reported with the skip
line, while a goal with no recurring transfer is skipped silently, with no
output line for it. -/
theorem C5_distribution_behaviour (api : ApiEnv) (st st1 : AppState)
    (calls : List ApiCall) (outs : List OutputLine)
    (h : execute_waterfall api st = (.ok st1, calls, outs))
    (htot : calculate_waterfall_total st1.spaces ≠ 0)
    (hbal : ¬ st1.balance.minorUnits < calculate_waterfall_total st1.spaces) :
    calls.filter isWriteCall = st1.spaces.filterMap goal_write ∧
    ∃ outs0, outs = outs0 ++ [OutputLine.startingWaterfall]
      ++ (st1.spaces.map goal_report).flatten ++ [OutputLine.waterfallCompleted] := by
  have hnw := refresh_if_needed_no_write api st
  unfold execute_waterfall at h
  split at h
  · simp at h
  · rename_i stA calls0 outs0 heq
    rw [heq] at hnw
    simp only at hnw
    split at h
    · rename_i hemp
      simp only [Prod.mk.injEq, Except.ok.injEq] at h
      obtain ⟨hst, hcalls, houts⟩ := h
      subst hst
      rw [List.isEmpty_iff.mp hemp] at htot
      simp [calculate_waterfall_total] at htot
    · rename_i hemp
      split at h
      · rename_i htot0
        simp only [Prod.mk.injEq, Except.ok.injEq] at h
        obtain ⟨hst, hcalls, houts⟩ := h
        subst hst
        exact absurd htot0 htot
      · rename_i htot0
        split at h
        · rename_i hlt
          simp only [Prod.mk.injEq, Except.ok.injEq] at h
          obtain ⟨hst, hcalls, houts⟩ := h
          subst hst
          exact absurd hlt hbal
        · rename_i hlt
          split at h
          · rename_i u calls2 outs2 hloop
            simp only [Prod.mk.injEq, Except.ok.injEq] at h
            obtain ⟨hst, hcalls, houts⟩ := h
            subst hst hcalls houts
            obtain ⟨hc2, ho2⟩ := waterfall_loop_ok api stA.spaces u calls2 outs2 hloop
            subst hc2 ho2
            constructor
            · rw [List.filter_append, hnw, List.nil_append,
                filterMap_goal_write_filter]
            · exact ⟨outs0, by simp⟩
          · simp at h

/-- Witness for C5 at the spec example state: the hypotheses hold there and
the characterization evaluates as stated. -/
theorem C5_distribution_behaviour_witness :
    wfCallsAB.filter isWriteCall = stAB.spaces.filterMap goal_write ∧
    ∃ outs0, wfOutsAB = outs0 ++ [OutputLine.startingWaterfall]
      ++ (stAB.spaces.map goal_report).flatten ++ [OutputLine.waterfallCompleted] :=
  C5_distribution_behaviour apiOne stAB stAB wfCallsAB wfOutsAB rfl
    (by decide) (by decide)

/-- Every successful execute_waterfall run returns exactly the state the
initial refresh-if-needed produced. -/
lemma execute_waterfall_ok_state (api : ApiEnv) (st st1 : AppState)
    (calls : List ApiCall) (outs : List OutputLine)
    (h : execute_waterfall api st = (.ok st1, calls, outs)) :
    ∃ calls0 outs0, _refresh_spaces_if_needed api st = (.ok st1, calls0, outs0) := by
  unfold execute_waterfall at h
  split at h
  · simp at h
  · rename_i stA calls0 outs0 heq
    refine ⟨calls0, outs0, ?_⟩
    repeat' split at h
    all_goals simp only [Prod.mk.injEq, Except.ok.injEq] at h
    all_goals try (rw [← h.1]; exact heq)
    all_goals simp_all

/-- Counterexample to claim C6 as stated: a recurring-transfer payload with
a malformed amount block makes the mapping step raise a validation error
out of refresh_spaces — the caller crashes instead of receiving an absent
result. -/
theorem C6_mapper_crash_counterexample :
    refresh_spaces apiBadAmount ⟨⟨"GBP", 123451⟩, []⟩ =
      (.error (.validationError "Amount" "minorUnits"),
        [.getSavingsGoals, .getRecurringTransfer "goal-A"],
        [.transformError "currencyAndAmount" "Amount"]) :=
  rfl

/-- Claim C6 (amended): transform_childs_class itself does handle a
wrongly-shaped child by logging the offending field and model and returning
an absent result without raising; but the subsequent
RecurringTransfer.model_validate call in refresh_spaces is unguarded, so
the same malformed payload raises the validation error to the caller of the
refresh. -/
theorem C6_transform_guard_unguarded_validate (d : RecurringTransferDict)
    (uid : String) (r : RecurrenceRule) (w : AmountWire)
    (huid : d.transferUid = some uid)
    (hrr : d.recurrenceRule = .validated r)
    (hamt : d.currencyAndAmount = .raw w)
    (hmu : w.minorUnits = none) :
    transform_childs_class_currencyAndAmount d =
      (d, none, [.transformError "currencyAndAmount" "Amount"]) ∧
    RecurringTransfer.model_validate d =
      .error (.validationError "Amount" "minorUnits") ∧
    ∀ (api : ApiEnv) (space : SavingsSpace),
      get_recurring_transfer api space.savingsGoalUid = .ok d →
      (attach_recurring_transfer api space).1 =
        .error (.validationError "Amount" "minorUnits") := by
  have h1 : transform_childs_class_recurrenceRule d = (d, some r, []) := by
    simp [transform_childs_class_recurrenceRule, hrr]
  have h2 : transform_childs_class_currencyAndAmount d =
      (d, none, [.transformError "currencyAndAmount" "Amount"]) := by
    simp [transform_childs_class_currencyAndAmount, hamt,
      Amount.model_validate, hmu]
  have h3 : RecurringTransfer.model_validate d =
      .error (.validationError "Amount" "minorUnits") := by
    simp [RecurringTransfer.model_validate, huid, hrr, hamt, validateChild,
      Amount.model_validate, hmu]
  refine ⟨h2, h3, ?_⟩
  intro api space hfetch
  simp [attach_recurring_transfer, hfetch, h1, h2, h3]

/-- Witness for C6 at a concrete malformed payload: the transform logs and
returns None, the outer validation raises, and the refresh path surfaces
the raised error. -/
theorem C6_transform_guard_unguarded_validate_witness :
    transform_childs_class_currencyAndAmount rtDictBadValidated =
      (rtDictBadValidated, none, [.transformError "currencyAndAmount" "Amount"]) ∧
    RecurringTransfer.model_validate rtDictBadValidated =
      .error (.validationError "Amount" "minorUnits") ∧
    (attach_recurring_transfer apiBadValidated spaceA0).1 =
      .error (.validationError "Amount" "minorUnits") :=
  have ht := C6_transform_guard_unguarded_validate rtDictBadValidated
    "transfer-A" ⟨"2023-01-01", "MONTHLY"⟩ ⟨some "GBP", none⟩ rfl rfl rfl rfl
  ⟨ht.1, ht.2.1, ht.2.2 apiBadValidated spaceA0 rfl⟩

/-- Counterexample to claim C7 as stated: when the recurring-transfer fetch
of goal A dies with a transport error, the whole refresh raises (the
wrapper's UnboundLocalError) and goal B is never fetched — the refresh does
not continue with the remaining goals. -/
theorem C7_transport_error_crashes_refresh_counterexample :
    refresh_spaces apiTransport ⟨⟨"GBP", 123451⟩, []⟩ =
      (.error .unboundLocalError,
        [.getSavingsGoals, .getRecurringTransfer "goal-A"], []) ∧
    ApiCall.getRecurringTransfer "goal-B" ∉
      [ApiCall.getSavingsGoals, ApiCall.getRecurringTransfer "goal-A"] :=
  ⟨rfl, by decide⟩

/-- Claim C7 (amended): when the fetch of a goal's recurring transfer comes
back absent (an HTTP-level failure turned into None), the goal is kept with
no recurring transfer attached and the refresh loop continues with the
remaining goals; only a transport-level failure raises and aborts the
refresh. -/
theorem C7_http_failure_skips_goal (api : ApiEnv) (g : GoalDict)
    (gs : List GoalDict) (space : SavingsSpace)
    (hval : validate_goal_dict g = .ok space)
    (hfetch : get_recurring_transfer api space.savingsGoalUid = .noneResult) :
    process_goal api g =
      (.ok space, [.getRecurringTransfer space.savingsGoalUid], []) ∧
    space.recurringTransfer = none ∧
    ∀ (rest : Except PyErr (List SavingsSpace)) (calls2 : List ApiCall)
      (outs2 : List OutputLine),
      refresh_loop api gs = (rest, calls2, outs2) →
      refresh_loop api (g :: gs) =
        (rest.map (space :: ·),
          .getRecurringTransfer space.savingsGoalUid :: calls2, outs2) := by
  have hp : process_goal api g =
      (.ok space, [.getRecurringTransfer space.savingsGoalUid], []) := by
    simp [process_goal, hval, attach_recurring_transfer, hfetch]
  refine ⟨hp, validate_goal_dict_no_transfer g space hval, ?_⟩
  intro rest calls2 outs2 hl
  simp [refresh_loop, hp, hl]

/-- Witness for C7: goal B of the fixture, whose recurring-transfer fetch
is a 404, ends up in the goal set with no transfer attached and the loop
completes. -/
theorem C7_http_failure_skips_goal_witness :
    process_goal apiOne goalDictB =
      (.ok spaceB, [.getRecurringTransfer "goal-B"], []) ∧
    spaceB.recurringTransfer = none ∧
    refresh_loop apiOne [goalDictB] =
      (.ok [spaceB], [.getRecurringTransfer "goal-B"], []) :=
  have ht := C7_http_failure_skips_goal apiOne goalDictB [] spaceB rfl rfl
  ⟨ht.1, ht.2.1, ht.2.2 (.ok []) [] [] rfl⟩

/-- Counterexample to claim C8 as stated: refresh_spaces appends to the
existing list, so a second call against the same API responses duplicates
the goal set instead of reproducing it. -/
theorem C8_refresh_duplicates_counterexample :
    refresh_spaces apiOne ⟨⟨"GBP", 123451⟩, []⟩ =
      (.ok stA1, refreshCallsOne, []) ∧
    refresh_spaces apiOne stA1 = (.ok stA2, refreshCallsOne, []) ∧
    stA2.spaces ≠ stA1.spaces :=
  ⟨rfl, rfl, by decide⟩

/-- Claim C8 (amended): a successful refresh_spaces appends the freshly
fetched goals to the existing in-memory list (keeping the balance), so it
is not idempotent by itself; per-call idempotency holds only through
_refresh_spaces_if_needed, which skips the refresh entirely whenever the
goal set is nonempty. -/
theorem C8_refresh_appends (api : ApiEnv) (st st' : AppState)
    (calls : List ApiCall) (outs : List OutputLine)
    (h : refresh_spaces api st = (.ok st', calls, outs)) :
    (∃ newSpaces, st'.spaces = st.spaces ++ newSpaces ∧ st'.balance = st.balance) ∧
    (st.spaces ≠ [] → _refresh_spaces_if_needed api st = (.ok st, [], [])) := by
  obtain ⟨hb, ns, hs⟩ := refresh_spaces_ok_shape api st st' calls outs h
  exact ⟨⟨ns, hs, hb⟩, fun hne => refresh_if_needed_nonempty api st hne⟩

/-- Witness for C8: refreshing the one-copy state appends a second copy of
space A while the balance stays put, and the guarded refresh is a no-op on
the nonempty state. -/
theorem C8_refresh_appends_witness :
    (∃ newSpaces, stA2.spaces = stA1.spaces ++ newSpaces ∧
      stA2.balance = stA1.balance) ∧
    _refresh_spaces_if_needed apiOne stA1 = (.ok stA1, [], []) :=
  have ht := C8_refresh_appends apiOne stA1 stA2 refreshCallsOne [] rfl
  ⟨ht.1, ht.2 (by decide)⟩

/-- Counterexample to claim C9 as stated: the Amount validation accepts a
negative minorUnits unchanged, so constructed Amounts are not guaranteed
non-negative. -/
theorem C9_negative_minorUnits_counterexample :
    Amount.model_validate ⟨some "GBP", some (-1)⟩ = .ok ⟨"GBP", -1⟩ ∧
    (Amount.mk "GBP" (-1)).minorUnits < 0 :=
  ⟨rfl, by decide⟩

/-- Claim C9 (amended): minorUnits is an arbitrary integer taken verbatim
from the wire — the code enforces no sign constraint — and the program
never mutates a constructed balance Amount: both execute_waterfall and
refresh_spaces leave the session balance exactly as it was. -/
theorem C9_amount_passthrough_balance_frame :
    (∀ (c : Option String) (n : Int),
      Amount.model_validate ⟨c, some n⟩ = .ok ⟨c.getD "GBP", n⟩) ∧
    (∀ (api : ApiEnv) (st st1 : AppState) (calls : List ApiCall)
      (outs : List OutputLine),
      execute_waterfall api st = (.ok st1, calls, outs) →
      st1.balance = st.balance) ∧
    (∀ (api : ApiEnv) (st st1 : AppState) (calls : List ApiCall)
      (outs : List OutputLine),
      refresh_spaces api st = (.ok st1, calls, outs) →
      st1.balance = st.balance) := by
  refine ⟨fun c n => rfl, ?_, ?_⟩
  · intro api st st1 calls outs h
    obtain ⟨calls0, outs0, heq⟩ := execute_waterfall_ok_state api st st1 calls outs h
    exact refresh_if_needed_balance api st st1 calls0 outs0 heq
  · intro api st st1 calls outs h
    exact (refresh_spaces_ok_shape api st st1 calls outs h).1

/-- Witness for C9: a concrete validation passes a positive amount through,
and the concrete waterfall and refresh runs keep the balance. -/
theorem C9_amount_passthrough_balance_frame_witness :
    Amount.model_validate ⟨some "GBP", some 42⟩ = .ok ⟨"GBP", 42⟩ ∧
    stAB.balance = stAB.balance ∧
    stA2.balance = stA1.balance :=
  have ht := C9_amount_passthrough_balance_frame
  ⟨ht.1 (some "GBP") 42,
    ht.2.1 apiOne stAB stAB wfCallsAB wfOutsAB rfl,
    ht.2.2 apiOne stA1 stA2 refreshCallsOne [] rfl⟩

/-- Counterexample to claim C10 as stated: on a state with an empty goal
list, print_savings_goals runs the refresh first — it issues network calls
and changes the application state. -/
theorem C10_print_refreshes_counterexample :
    print_savings_goals apiOne ⟨⟨"GBP", 123451⟩, []⟩ =
      (.ok stA1, refreshCallsOne,
        [.refreshingSavingsGoals, .goalBalanceLine "Trip to Paris" 50000]) ∧
    refreshCallsOne ≠ [] ∧
    stA1 ≠ ⟨⟨"GBP", 123451⟩, []⟩ :=
  ⟨rfl, by decide, by decide⟩

/-- Claim C10 (amended): print_balance and print_waterfall_total are pure
formatting for every state; print_savings_goals and
print_recurring_transfers are pure only when the goal set is already
populated — with an empty goal set they trigger a refresh, which performs
network reads and replaces the goal list. -/
theorem C10_print_purity :
    (∀ st : AppState, (print_balance st).1 = st ∧ (print_balance st).2.1 = []) ∧
    (∀ st : AppState,
      (print_waterfall_total st).1 = st ∧ (print_waterfall_total st).2.1 = []) ∧
    (∀ (api : ApiEnv) (st : AppState), st.spaces ≠ [] →
      (print_savings_goals api st).1 = .ok st ∧
      (print_savings_goals api st).2.1 = []) ∧
    (∀ (api : ApiEnv) (st : AppState), st.spaces ≠ [] →
      (print_recurring_transfers api st).1 = .ok st ∧
      (print_recurring_transfers api st).2.1 = []) := by
  have hemp : ∀ st : AppState, st.spaces ≠ [] → st.spaces.isEmpty = false := by
    intro st hne
    cases hsp : st.spaces with
    | nil => exact absurd hsp hne
    | cons a l => rfl
  refine ⟨fun st => ⟨rfl, rfl⟩, fun st => ⟨rfl, rfl⟩, ?_, ?_⟩
  · intro api st hne
    rw [print_savings_goals, refresh_if_needed_nonempty api st hne]
    simp [hemp st hne]
  · intro api st hne
    rw [print_recurring_transfers, refresh_if_needed_nonempty api st hne]
    simp [hemp st hne]

/-- Witness for C10 on the populated fixture state: all four reporting
operations leave the state alone and issue no calls. -/
theorem C10_print_purity_witness :
    (print_balance stAB).1 = stAB ∧ (print_balance stAB).2.1 = [] ∧
    (print_waterfall_total stAB).1 = stAB ∧
    (print_waterfall_total stAB).2.1 = [] ∧
    (print_savings_goals apiOne stAB).1 = .ok stAB ∧
    (print_savings_goals apiOne stAB).2.1 = [] ∧
    (print_recurring_transfers apiOne stAB).1 = .ok stAB ∧
    (print_recurring_transfers apiOne stAB).2.1 = [] :=
  have ht := C10_print_purity
  ⟨(ht.1 stAB).1, (ht.1 stAB).2, (ht.2.1 stAB).1, (ht.2.1 stAB).2,
    (ht.2.2.1 apiOne stAB (by decide)).1, (ht.2.2.1 apiOne stAB (by decide)).2,
    (ht.2.2.2 apiOne stAB (by decide)).1, (ht.2.2.2 apiOne stAB (by decide)).2⟩

end StarlingWaterfall
